import Mathlib

/-!
A shallow embedding of the in-process IPC transport backend
(src/platform/inprocess/mod.rs of ipc-channel).

Modelling conventions, used throughout:
* a crossbeam unbounded channel is an explicit FIFO queue of messages
  together with the number of live `Sender` handles (crossbeam reports
  disconnection to the receiving side exactly when that number is zero and
  the queue is empty);
* an operation that can suspend the calling thread returns `Option`, with
  `none` meaning "the call blocks" — a function whose return type has no
  such alternative can, by construction, never suspend;
* a panic (an `unwrap` of `None`, or an explicit `panic!`) is modelled by a
  distinguished constructor (`panicked`) or by `none` in a result position,
  as documented at each definition;
* channel endpoints travelling inside messages are identified by a numeric
  handle id, which is all the claims under study need of them;
* the process-wide `ONE_SHOT_SERVERS: Mutex<HashMap<String, ServerRecord>>`
  is an association list with at most one live entry per key (insert
  overwrites, erase removes every entry for the key), which is exactly the
  observable behaviour of the `HashMap`.
-/

namespace InProcess

/-- Byte payloads (`Vec<u8>`); each entry stands for one byte. -/
abbrev Bytes := List Nat

/-- `ChannelError` (mod.rs lines 384-389). -/
inductive ChannelError
  | ChannelClosedError
  | BrokenPipeError
  | UnknownError
deriving DecidableEq

/-- `OsIpcSharedMemory` (lines 319-323): `ptr` is modelled by the identity of
the backing allocation (`allocId`) plus whether the pointer is null
(`ptrNull`); `length` and the `Arc<Vec<u8>>` contents are explicit. -/
structure OsIpcSharedMemory where
  allocId : Nat
  ptrNull : Bool
  length : Nat
  data : List Nat
deriving DecidableEq

/-- `Deref for OsIpcSharedMemory` (lines 350-362): panics (`none`) on a null
pointer, otherwise exposes `length` bytes starting at `ptr`. -/
def OsIpcSharedMemory.deref (m : OsIpcSharedMemory) : Option (List Nat) :=
  if m.ptrNull then none else some (m.data.take m.length)

/-- `Clone for OsIpcSharedMemory` (lines 328-336): copies `ptr` and `length`
and clones the `Arc`, so the handle is bitwise the same record — in
particular the backing allocation (`allocId`) is shared, not duplicated. -/
def OsIpcSharedMemory.clone (m : OsIpcSharedMemory) : OsIpcSharedMemory := m

/-- `PartialEq for OsIpcSharedMemory` (lines 338-342): `**self == **other`,
i.e. compare the dereferenced byte slices; `none` models the panic that a
null pointer would raise while dereferencing. -/
def OsIpcSharedMemory.beq (a b : OsIpcSharedMemory) : Option Bool :=
  match a.deref, b.deref with
  | some x, some y => some (x == y)
  | _, _ => none

/-- `OsIpcSharedMemory::from_byte` (lines 365-372): a fresh allocation
(`alloc` names it) holding `length` copies of `byte`. -/
def OsIpcSharedMemory.from_byte (byte : Nat) (length : Nat) (alloc : Nat) :
    OsIpcSharedMemory :=
  { allocId := alloc, ptrNull := false, length := length,
    data := List.replicate length byte }

/-- `OsIpcSharedMemory::from_bytes` (lines 374-381): a fresh allocation
copying `bytes`. -/
def OsIpcSharedMemory.from_bytes (bytes : List Nat) (alloc : Nat) :
    OsIpcSharedMemory :=
  { allocId := alloc, ptrNull := false, length := bytes.length, data := bytes }

/-- `OsIpcChannel` (lines 286-290): an endpoint in transit, identified by the
numeric id of the wrapped handle. -/
inductive OsIpcChannel
  | Sender (id : Nat)
  | Receiver (id : Nat)
deriving DecidableEq

/-- `OsOpaqueIpcChannel` (lines 292-295): `RefCell<Option<OsIpcChannel>>`. -/
structure OsOpaqueIpcChannel where
  channel : Option OsIpcChannel
deriving DecidableEq

/-- `OsOpaqueIpcChannel::new` (lines 298-302). -/
def OsOpaqueIpcChannel.new (c : OsIpcChannel) : OsOpaqueIpcChannel := ⟨some c⟩

/-- `OsOpaqueIpcChannel::to_receiver` (lines 304-309): `take()` empties the
slot no matter what; `unwrap` of an already emptied slot and the
`panic!("Opaque channel is not a receiver!")` arm are both modelled by a
`none` first component. -/
def OsOpaqueIpcChannel.to_receiver (c : OsOpaqueIpcChannel) :
    Option Nat × OsOpaqueIpcChannel :=
  match c.channel with
  | none => (none, ⟨none⟩)
  | some (.Sender _) => (none, ⟨none⟩)
  | some (.Receiver r) => (some r, ⟨none⟩)

/-- `OsOpaqueIpcChannel::to_sender` (lines 311-316), mirror image of
`to_receiver`. -/
def OsOpaqueIpcChannel.to_sender (c : OsOpaqueIpcChannel) :
    Option Nat × OsOpaqueIpcChannel :=
  match c.channel with
  | none => (none, ⟨none⟩)
  | some (.Sender s) => (some s, ⟨none⟩)
  | some (.Receiver _) => (none, ⟨none⟩)

/-- `ChannelMessage` (line 54). -/
structure ChannelMessage where
  data : Bytes
  channels : List OsIpcChannel
  shmems : List OsIpcSharedMemory
deriving DecidableEq

/-- The shared state behind one channel: the crossbeam unbounded FIFO queue,
the number of live `Sender` handles, and the `Arc<AtomicBool>`
disconnection flag (lines 56-63). -/
structure Channel where
  queue : List ChannelMessage
  senders : Nat
  disconnected : Bool
deriving DecidableEq

/-- `channel()` (lines 56-63): fresh empty queue, one Sender handle, flag
false. -/
def channel : Channel := { queue := [], senders := 1, disconnected := false }

/-- `Clone for OsIpcSender` (line 125, derived): one more live handle on the
same queue and flag. -/
def cloneSender (c : Channel) : Channel := { c with senders := c.senders + 1 }

/-- Dropping one `OsIpcSender` handle: crossbeam disconnects the receiving
side once this count reaches zero. -/
def dropSender (c : Channel) : Channel := { c with senders := c.senders - 1 }

/-- What `recv` hands back: payload bytes, endpoints re-wrapped by
`OsOpaqueIpcChannel::new`, and the shared-memory regions (lines 101-102). -/
abbrev RecvOut := Bytes × List OsOpaqueIpcChannel × List OsIpcSharedMemory

/-- Decoding of a received `ChannelMessage(d, c, s)` (lines 101-103). -/
def decodeMessage (m : ChannelMessage) : RecvOut :=
  (m.data, m.channels.map OsOpaqueIpcChannel.new, m.shmems)

/-- crossbeam `Receiver::recv` on the underlying queue: pops the front
message; yields `some none` (crossbeam's `None`, i.e. disconnected) when the
queue is empty with no live sender; suspends (outer `none`) when the queue
is empty but a sender survives. -/
def crossbeamRecv (c : Channel) : Option (Option ChannelMessage × Channel) :=
  match c.queue with
  | m :: rest => some (some m, { c with queue := rest })
  | [] => if c.senders = 0 then some (none, c) else none

/-- `OsIpcReceiver` (line 66): the `RefCell<Option<OsIpcReceiverInner>>`
slot; `some ()` while this handle still owns the inner receiving resource.
The channel state itself is passed to each operation explicitly. -/
structure OsIpcReceiver where
  slot : Option Unit
deriving DecidableEq

/-- The receiver handle as `channel()` returns it: it owns the inner. -/
def OsIpcReceiver.fresh : OsIpcReceiver := ⟨some ()⟩

/-- `OsIpcReceiver::consume` (lines 92-94): `take()` moves the inner out of
the original into a new handle; the pair is (new handle, what is left of the
original). -/
def OsIpcReceiver.consume (h : OsIpcReceiver) : OsIpcReceiver × OsIpcReceiver :=
  (⟨h.slot⟩, ⟨none⟩)

deriving instance DecidableEq for Except

/-- Outcome of `recv`/`try_recv` through a receiver handle: `panicked` is the
`as_ref().unwrap()` of an emptied slot (line 100/112), `blocked` a suspended
call, `result` a returned `Result`. -/
inductive RecvResult
  | panicked
  | blocked
  | result (r : Except ChannelError RecvOut) (c : Channel)
deriving DecidableEq

/-- `OsIpcReceiver::recv` (lines 96-106). -/
def OsIpcReceiver.recv (h : OsIpcReceiver) (c : Channel) : RecvResult :=
  match h.slot with
  | none => .panicked
  | some _ =>
    match crossbeamRecv c with
    | none => .blocked
    | some (some m, c') => .result (.ok (decodeMessage m)) c'
    | some (none, c') => .result (.error .ChannelClosedError) c'

/-- `OsIpcReceiver::try_recv` (lines 108-122): `select!` with a `default`
arm, so the return type offers no `blocked` outcome at all — the match is
total on the queue/sender state. -/
def OsIpcReceiver.try_recv (h : OsIpcReceiver) (c : Channel) : RecvResult :=
  match h.slot with
  | none => .panicked
  | some _ =>
    match c.queue with
    | m :: rest => .result (.ok (decodeMessage m)) { c with queue := rest }
    | [] =>
      if c.senders = 0 then .result (.error .ChannelClosedError) c
      else .result (.error .UnknownError) c

/-- `Drop for OsIpcReceiverInner` (lines 74-78), as observed when a receiver
handle is dropped: only a handle whose slot still owns the inner stores
`true` into the shared flag; a handle emptied by `consume` drops a `None`
and leaves the flag alone. -/
def OsIpcReceiver.dropHandle (h : OsIpcReceiver) (c : Channel) : Channel :=
  match h.slot with
  | some _ => { c with disconnected := true }
  | none => c

/-- `OsIpcSender::send` (lines 156-169): fail fast on the flag, otherwise the
crossbeam send enqueues `ChannelMessage(data.to_vec(), ports, regions)` and
cannot fail or block (the queue is unbounded). -/
def OsIpcSender.send (c : Channel) (data : Bytes) (ports : List OsIpcChannel)
    (shared_memory_regions : List OsIpcSharedMemory) :
    Except ChannelError Channel :=
  if c.disconnected then .error .BrokenPipeError
  else .ok { c with queue := c.queue ++ [⟨data, ports, shared_memory_regions⟩] }

/-- `OsIpcSelectionResult` (lines 226-229). -/
inductive OsIpcSelectionResult
  | DataReceived (id : Nat) (data : Bytes) (channels : List OsOpaqueIpcChannel)
      (shmems : List OsIpcSharedMemory)
  | ChannelClosed (id : Nat)
deriving DecidableEq

/-- `OsIpcReceiverSet` (lines 172-176): the `incrementor: RangeFrom<u64>` is
the next id to hand out; `receiver_ids` and `receivers` are the two parallel
vectors, with each stored receiver's channel state kept inline. -/
structure OsIpcReceiverSet where
  incrementor : Nat
  receiver_ids : List Nat
  receivers : List Channel
deriving DecidableEq

/-- `OsIpcReceiverSet::new` (lines 179-185). -/
def OsIpcReceiverSet.new : OsIpcReceiverSet :=
  { incrementor := 0, receiver_ids := [], receivers := [] }

/-- `OsIpcReceiverSet::add` (lines 187-192): take the next id from the
incrementor, push id and (consumed) receiver onto the parallel vectors. -/
def OsIpcReceiverSet.add (s : OsIpcReceiverSet) (c : Channel) :
    Nat × OsIpcReceiverSet :=
  (s.incrementor,
    { incrementor := s.incrementor + 1,
      receiver_ids := s.receiver_ids ++ [s.incrementor],
      receivers := s.receivers ++ [c] })

/-- `OsIpcReceiverSet::select` (lines 194-223), parametrised by the index
`i` of the member the crossbeam `select!` fires on; `none` means member `i`
is not the one that fires (it is absent or not ready — the call would pick
another member or suspend). An empty set returns the `Unknown` error before
any waiting happens; a firing member yields exactly `vec![event]`. -/
def OsIpcReceiverSet.select (s : OsIpcReceiverSet) (i : Nat) :
    Option (Except ChannelError (List OsIpcSelectionResult) × OsIpcReceiverSet) :=
  if s.receivers.isEmpty then some (.error .UnknownError, s)
  else
    match s.receivers[i]?, s.receiver_ids[i]? with
    | some c, some r_id =>
      match c.queue with
      | m :: rest =>
        some (.ok [.DataReceived r_id m.data
            (m.channels.map OsOpaqueIpcChannel.new) m.shmems],
          { s with receivers := s.receivers.set i { c with queue := rest } })
      | [] =>
        if c.senders = 0 then
          some (.ok [.ChannelClosed r_id],
            { s with receiver_ids := s.receiver_ids.eraseIdx i,
                     receivers := s.receivers.eraseIdx i })
        else none
    | _, _ => none

/-- `ServerRecord` (lines 24-48): the stored `OsIpcSender` clone is named by
its id; `connSignals` is how many rendezvous signals are buffered in the
record's `conn_sender`/`conn_receiver` crossbeam channel. -/
structure ServerRecord where
  sender : Nat
  connSignals : Nat
deriving DecidableEq

/-- The `ONE_SHOT_SERVERS` table (lines 50-52). -/
abbrev Registry := List (String × ServerRecord)

/-- `HashMap::get` on the table. -/
def regLookup (reg : Registry) (name : String) : Option ServerRecord :=
  (reg.find? (fun p => p.1 == name)).map Prod.snd

/-- `HashMap::remove` on the table. -/
def regErase (reg : Registry) (name : String) : Registry :=
  reg.filter (fun p => !(p.1 == name))

/-- `HashMap::insert` on the table (overwrites any entry for the key). -/
def regInsert (reg : Registry) (name : String) (r : ServerRecord) : Registry :=
  (name, r) :: regErase reg name

/-- `OsIpcOneShotServer::new` (lines 250-260), registry part: store a fresh
record (no rendezvous signal buffered yet) under the generated name. -/
def OsIpcOneShotServer.newServer (reg : Registry) (name : String)
    (senderId : Nat) : Registry :=
  regInsert reg name { sender := senderId, connSignals := 0 }

/-- `OsIpcSender::connect` (lines 146-150): `get(&name).unwrap()` — `none`
models the panic on an absent name; on a present record, clone it, signal
the rendezvous slot (`record.connect()` buffers one more signal in the
shared crossbeam channel) and return the cloned Sender. -/
def OsIpcSender.connect (reg : Registry) (name : String) :
    Option (Registry × Nat) :=
  match regLookup reg name with
  | none => none
  | some r =>
    some (regInsert reg name { r with connSignals := r.connSignals + 1 }, r.sender)

/-- Outcome of the registry half of `accept`: `panicked` is the
`get(&name).unwrap()` of an absent entry, `blocked` a
`conn_receiver.recv()` with no buffered signal, `accepted` carries the
table after `remove(&name)`. -/
inductive AcceptOutcome
  | panicked
  | blocked
  | accepted (reg : Registry)
deriving DecidableEq

/-- `OsIpcOneShotServer::accept` (lines 262-283), registry part: look the
record up (`unwrap`), wait for one rendezvous signal, then remove the entry
— the blocking first receive of the bootstrapped channel that follows does
not touch the registry. -/
def OsIpcOneShotServer.accept (reg : Registry) (name : String) : AcceptOutcome :=
  match regLookup reg name with
  | none => .panicked
  | some r =>
    if r.connSignals = 0 then .blocked
    else .accepted (regErase reg name)

/-- Sending a whole list of messages in order through one Sender. -/
def sendAll (c : Channel) : List ChannelMessage → Except ChannelError Channel
  | [] => .ok c
  | m :: rest =>
    match OsIpcSender.send c m.data m.channels m.shmems with
    | .ok c' => sendAll c' rest
    | .error _ => .error ChannelError.BrokenPipeError

/-- `n` successive successful `recv` calls through handle `h`; `none` when
one of them blocks, errors or panics. -/
def recvN (h : OsIpcReceiver) (c : Channel) : Nat → Option (List RecvOut × Channel)
  | 0 => some ([], c)
  | n + 1 =>
    match OsIpcReceiver.recv h c with
    | .result (.ok out) c' =>
      match recvN h c' n with
      | some (outs, c'') => some (out :: outs, c'')
      | none => none
    | _ => none

/-- One operation against a receiver set. -/
inductive RSetOp
  | addOp (c : Channel)
  | selectOp (i : Nat)
deriving DecidableEq

/-- The observable event of one receiver-set operation. -/
inductive RSetEvent
  | added (id : Nat)
  | selected (r : Except ChannelError (List OsIpcSelectionResult))
  | wouldBlock
deriving DecidableEq

/-- One step of a receiver set under an operation. -/
def rsetStep (s : OsIpcReceiverSet) : RSetOp → RSetEvent × OsIpcReceiverSet
  | .addOp c => ((RSetEvent.added (s.add c).1), (s.add c).2)
  | .selectOp i =>
    match s.select i with
    | none => (.wouldBlock, s)
    | some (r, s') => (.selected r, s')

/-- Run a list of operations, collecting the events. -/
def rsetRun (s : OsIpcReceiverSet) : List RSetOp → List RSetEvent × OsIpcReceiverSet
  | [] => ([], s)
  | op :: ops =>
    let p := rsetStep s op
    let q := rsetRun p.2 ops
    (p.1 :: q.1, q.2)

/-- Does a selection result carry the id? -/
def resultMentions (id : Nat) : OsIpcSelectionResult → Bool
  | .DataReceived j _ _ _ => j == id
  | .ChannelClosed j => j == id

/-- Does an observable event mention the id (as an assigned id or inside a
selection result)? -/
def eventMentions (id : Nat) : RSetEvent → Bool
  | .added j => j == id
  | .selected (.ok evs) => evs.any (resultMentions id)
  | .selected (.error _) => false
  | .wouldBlock => false

/-- The receiver-set invariant `OsIpcReceiverSet::add` and `select`
maintain: ids strictly increasing (hence distinct), all below the
incrementor, and the two parallel vectors in lockstep. -/
def RSetWF (s : OsIpcReceiverSet) : Prop :=
  s.receiver_ids.Pairwise (· < ·) ∧
  (∀ id ∈ s.receiver_ids, id < s.incrementor) ∧
  s.receiver_ids.length = s.receivers.length

/-- Whatever was erased for a key can no longer be looked up under it. -/
theorem regLookup_erase (reg : Registry) (name : String) :
    regLookup (regErase reg name) name = none := by
  have hfind : List.find? (fun p => p.1 == name) (regErase reg name) = none := by
    rw [List.find?_eq_none]
    intro x hx
    rw [regErase, List.mem_filter] at hx
    simpa using hx.2
  rw [regLookup, hfind]
  rfl

/-- On a channel whose disconnection flag is unset, a sequence of sends all
succeeds and appends the messages, in order, at the tail of the queue. -/
theorem sendAll_ok (msgs : List ChannelMessage) :
    ∀ c : Channel, c.disconnected = false →
      sendAll c msgs = .ok { c with queue := c.queue ++ msgs } := by
  induction msgs with
  | nil => intro c _; simp [sendAll]
  | cons m rest ih =>
    intro c h
    obtain ⟨q, sn, dc⟩ := c
    obtain ⟨d, chs, sm⟩ := m
    cases dc with
    | false =>
      have step := ih ⟨q ++ [⟨d, chs, sm⟩], sn, false⟩ rfl
      simp [sendAll, OsIpcSender.send, step]
    | true => simp at h

/-- Draining a queue of `n` buffered messages with `n` blocking receives
returns them in order, decoded, and leaves the queue empty. -/
theorem recvN_all (msgs : List ChannelMessage) (s : Nat) (d : Bool) :
    recvN OsIpcReceiver.fresh ⟨msgs, s, d⟩ msgs.length =
      some (msgs.map decodeMessage, ⟨[], s, d⟩) := by
  induction msgs with
  | nil => rfl
  | cons m rest ih =>
    have ih' : recvN { slot := some () } ⟨rest, s, d⟩ rest.length =
        some (rest.map decodeMessage, ⟨[], s, d⟩) := ih
    simp [recvN, OsIpcReceiver.recv, OsIpcReceiver.fresh, crossbeamRecv, ih']

/-- C1: N messages sent in order through one Sender of a fresh `channel()`
are returned by N successive `recv` calls on its Receiver, in the same
order, with payload bytes equal to the bytes passed to `send`. -/
theorem claim_C1_in_order_delivery (msgs : List ChannelMessage) :
    ∃ c', sendAll channel msgs = .ok c' ∧
      recvN OsIpcReceiver.fresh c' msgs.length =
        some (msgs.map decodeMessage, channel) ∧
      (msgs.map decodeMessage).map (fun out => out.1) =
        msgs.map ChannelMessage.data := by
  refine ⟨{ channel with queue := msgs }, ?_, ?_, ?_⟩
  · simpa using sendAll_ok msgs channel rfl
  · exact recvN_all msgs 1 false
  · rw [List.map_map]
    rfl

/-- C2: `send` fails with `BrokenPipe` exactly when the disconnection flag
is set and succeeds (enqueueing the message) otherwise; the flag is stored
by dropping the handle that still owns the receiving resource, while
dropping a handle emptied by `consume` — in particular the original after
`consume()` — leaves the channel untouched. -/
theorem claim_C2_broken_pipe_flag (c : Channel) (data : Bytes)
    (ports : List OsIpcChannel) (regions : List OsIpcSharedMemory)
    (h : OsIpcReceiver) :
    (OsIpcSender.send c data ports regions = .error .BrokenPipeError ↔
      c.disconnected = true) ∧
    (c.disconnected = false →
      OsIpcSender.send c data ports regions =
        .ok { c with queue := c.queue ++ [⟨data, ports, regions⟩] }) ∧
    (∀ e, OsIpcSender.send c data ports regions = .error e →
      e = .BrokenPipeError) ∧
    (OsIpcReceiver.dropHandle h.consume.2 c = c) ∧
    ((OsIpcReceiver.dropHandle OsIpcReceiver.fresh c).disconnected = true) ∧
    (h.slot = none → OsIpcReceiver.dropHandle h c = c) := by
  refine ⟨?_, ?_, ?_, rfl, rfl, ?_⟩
  · cases hd : c.disconnected <;> simp [OsIpcSender.send, hd]
  · intro hd; simp [OsIpcSender.send, hd]
  · intro e he
    cases hd : c.disconnected <;> rw [OsIpcSender.send, hd] at he <;> simp at he
    exact he.symm
  · intro hs
    rw [OsIpcReceiver.dropHandle, hs]

/-- C3: `connect` on a name the registry does not hold — never published, or
already removed by `accept` — finds no record: the `unwrap` is a fatal
precondition violation (`none`), the call neither suspends nor produces a
Sender. -/
theorem claim_C3_connect_absent (reg : Registry) (name : String)
    (habsent : regLookup reg name = none) :
    OsIpcSender.connect reg name = none := by
  rw [OsIpcSender.connect, habsent]

/-- C3, witnessed at a concrete input: the empty registry holds no record
for the name "a". -/
theorem claim_C3_connect_absent_witness :
    regLookup ([] : Registry) "a" = none ∧
      OsIpcSender.connect ([] : Registry) "a" = none :=
  ⟨by decide, claim_C3_connect_absent [] "a" (by decide)⟩

/-- Complete case analysis of a `select` call that fires on member `i`:
either the set was empty (immediate `Unknown`), or member `i` had a buffered
message (one `DataReceived` event, message popped, member kept), or member
`i` was disconnected with an empty queue (one `ChannelClosed` event, member
removed from both parallel vectors). -/
theorem select_spec (s : OsIpcReceiverSet) (i : Nat)
    (r : Except ChannelError (List OsIpcSelectionResult)) (s' : OsIpcReceiverSet)
    (h : s.select i = some (r, s')) :
    (s.receivers = [] ∧ r = .error .UnknownError ∧ s' = s) ∨
    (∃ c r_id m rest, s.receivers[i]? = some c ∧ s.receiver_ids[i]? = some r_id ∧
      c.queue = m :: rest ∧
      r = .ok [.DataReceived r_id m.data
        (m.channels.map OsOpaqueIpcChannel.new) m.shmems] ∧
      s' = { s with receivers := s.receivers.set i { c with queue := rest } }) ∨
    (∃ c r_id, s.receivers[i]? = some c ∧ s.receiver_ids[i]? = some r_id ∧
      c.queue = [] ∧ c.senders = 0 ∧ r = .ok [.ChannelClosed r_id] ∧
      s' = { s with receiver_ids := s.receiver_ids.eraseIdx i,
                    receivers := s.receivers.eraseIdx i }) := by
  by_cases hemp : s.receivers.isEmpty
  · left
    rw [OsIpcReceiverSet.select, if_pos hemp] at h
    injection h with h'
    injection h' with hr hs
    exact ⟨List.isEmpty_iff.mp hemp, hr.symm, hs.symm⟩
  · rw [OsIpcReceiverSet.select, if_neg hemp] at h
    split at h
    · rename_i c r_id hc hid
      split at h
      · rename_i m rest hq
        right; left
        injection h with h'
        injection h' with hr hs
        exact ⟨c, r_id, m, rest, hc, hid, hq, hr.symm, hs.symm⟩
      · rename_i hq
        split at h
        · rename_i hz
          right; right
          injection h with h'
          injection h' with hr hs
          exact ⟨c, r_id, hc, hid, hq, hz, hr.symm, hs.symm⟩
        · cases h
    · cases h

/-- C4: `select` on an empty set returns the `Unknown` error at once (no
suspension — the error is produced before any wait could start), and every
successful call yields a list holding exactly one event, a `DataReceived`
or a `ChannelClosed`. -/
theorem claim_C4_select_empty_and_one_event (s : OsIpcReceiverSet) (i : Nat) :
    (s.receivers = [] → s.select i = some (.error .UnknownError, s)) ∧
    (∀ evs s', s.select i = some (.ok evs, s') →
      evs.length = 1 ∧
      ((∃ id d chs sm, evs = [.DataReceived id d chs sm]) ∨
        (∃ id, evs = [.ChannelClosed id]))) := by
  constructor
  · intro hemp
    rw [OsIpcReceiverSet.select, if_pos (List.isEmpty_iff.mpr hemp)]
  · intro evs s' hsel
    rcases select_spec s i (.ok evs) s' hsel with
      ⟨_, hr, _⟩ | ⟨c, r_id, m, rest, _, _, _, hr, _⟩ | ⟨c, r_id, _, _, _, _, hr, _⟩
    · cases hr
    · injection hr with hr'
      subst hr'
      exact ⟨rfl, Or.inl ⟨r_id, m.data, m.channels.map OsOpaqueIpcChannel.new,
        m.shmems, rfl⟩⟩
    · injection hr with hr'
      subst hr'
      exact ⟨rfl, Or.inr ⟨r_id, rfl⟩⟩

/-- C5: `try_recv` can never suspend (its outcome type is exercised totally
and the `blocked` alternative is unreachable): with an empty queue it fails
with `Unknown` while a sender survives; once every sender is gone and the
queue is drained, `try_recv` and the blocking `recv` both fail with
`ChannelClosed`. -/
theorem claim_C5_try_recv_unknown_closed (c : Channel) :
    (∀ hh : OsIpcReceiver, OsIpcReceiver.try_recv hh c ≠ .blocked) ∧
    (c.queue = [] → c.senders ≠ 0 →
      OsIpcReceiver.try_recv OsIpcReceiver.fresh c =
        .result (.error .UnknownError) c) ∧
    (c.queue = [] → c.senders = 0 →
      OsIpcReceiver.try_recv OsIpcReceiver.fresh c =
        .result (.error .ChannelClosedError) c ∧
      OsIpcReceiver.recv OsIpcReceiver.fresh c =
        .result (.error .ChannelClosedError) c) := by
  refine ⟨?_, ?_, ?_⟩
  · intro hh
    obtain ⟨slot⟩ := hh
    obtain ⟨q, sn, dc⟩ := c
    cases slot with
    | none => cases q <;> simp [OsIpcReceiver.try_recv]
    | some u =>
      cases q with
      | nil =>
        simp only [OsIpcReceiver.try_recv]
        split <;> simp
      | cons m rest => simp [OsIpcReceiver.try_recv]
  · intro hq hs
    simp [OsIpcReceiver.try_recv, OsIpcReceiver.fresh, hq, hs]
  · intro hq hs
    constructor
    · simp [OsIpcReceiver.try_recv, OsIpcReceiver.fresh, hq, hs]
    · simp [OsIpcReceiver.recv, OsIpcReceiver.fresh, crossbeamRecv, hq, hs]

/-- C7: a successful `accept` removes the registry entry for the server's
name; after the removal a `connect` for the name finds no record (its
`unwrap` is a fatal precondition violation), and so does a second `accept`
— the Server Record is consumed by at most one `accept`. -/
theorem claim_C7_accept_single_use (reg : Registry) (name : String)
    (reg' : Registry)
    (hacc : OsIpcOneShotServer.accept reg name = .accepted reg') :
    regLookup reg' name = none ∧
    OsIpcSender.connect reg' name = none ∧
    OsIpcOneShotServer.accept reg' name = .panicked := by
  cases hl : regLookup reg name with
  | none => simp [OsIpcOneShotServer.accept, hl] at hacc
  | some r =>
    by_cases hz : r.connSignals = 0
    · simp [OsIpcOneShotServer.accept, hl, hz] at hacc
    · simp only [OsIpcOneShotServer.accept, hl, if_neg hz] at hacc
      injection hacc with hreg
      subst hreg
      refine ⟨regLookup_erase reg name, ?_, ?_⟩
      · simp [OsIpcSender.connect, regLookup_erase]
      · simp [OsIpcOneShotServer.accept, regLookup_erase]

/-- C7, witnessed at a concrete input: a registry holding one record for
"a" with one buffered rendezvous signal; `accept` consumes it, leaving the
empty registry. -/
theorem claim_C7_accept_single_use_witness :
    regLookup ([] : Registry) "a" = none ∧
    OsIpcSender.connect ([] : Registry) "a" = none ∧
    OsIpcOneShotServer.accept ([] : Registry) "a" = .panicked :=
  claim_C7_accept_single_use [("a", ⟨7, 1⟩)] "a" [] (by decide)

/-- C8: `from_byte(value, length)` dereferences to `length` bytes all equal
to `value`; `from_bytes(source)` dereferences to `source`; equality of two
buffers compares bytes and is blind to which allocation backs each handle
(two independently constructed buffers over the same bytes are equal); and a
clone is the very same handle, reading identical bytes. -/
theorem claim_C8_shared_memory (byte len a1 a2 : Nat) (bytes : List Nat)
    (m : OsIpcSharedMemory) :
    ((OsIpcSharedMemory.from_byte byte len a1).deref =
        some (List.replicate len byte) ∧
      (List.replicate len byte).length = len ∧
      (∀ b ∈ List.replicate len byte, b = byte)) ∧
    ((OsIpcSharedMemory.from_bytes bytes a1).deref = some bytes) ∧
    (OsIpcSharedMemory.beq (OsIpcSharedMemory.from_bytes bytes a1)
        (OsIpcSharedMemory.from_bytes bytes a2) = some true) ∧
    (∀ x y : OsIpcSharedMemory, ∀ j k : Nat,
      OsIpcSharedMemory.beq { x with allocId := j } { y with allocId := k } =
        OsIpcSharedMemory.beq x y) ∧
    (∀ x y dx dy, x.deref = some dx → y.deref = some dy →
      (OsIpcSharedMemory.beq x y = some true ↔ dx = dy)) ∧
    (m.clone = m ∧ m.clone.deref = m.deref) := by
  refine ⟨⟨?_, by simp, fun b hb => List.eq_of_mem_replicate hb⟩, ?_, ?_,
    fun x y j k => rfl, ?_, rfl, rfl⟩
  · simp [OsIpcSharedMemory.from_byte, OsIpcSharedMemory.deref]
  · simp [OsIpcSharedMemory.from_bytes, OsIpcSharedMemory.deref]
  · simp [OsIpcSharedMemory.beq, OsIpcSharedMemory.from_bytes,
      OsIpcSharedMemory.deref]
  · intro x y dx dy hdx hdy
    simp [OsIpcSharedMemory.beq, hdx, hdy]

/-- C9: on an opaque transit endpoint, the accessor that does not match the
wrapped variant yields the panic outcome (`none`), never a recoverable
error; the matching accessor returns the wrapped endpoint; and since either
accessor empties the slot, any second accessor call on the same wrapper
panics too. -/
theorem claim_C9_opaque_accessors (sid rid : Nat) (c : OsOpaqueIpcChannel) :
    ((OsOpaqueIpcChannel.new (.Sender sid)).to_receiver.1 = none ∧
      (OsOpaqueIpcChannel.new (.Receiver rid)).to_sender.1 = none) ∧
    ((OsOpaqueIpcChannel.new (.Receiver rid)).to_receiver.1 = some rid ∧
      (OsOpaqueIpcChannel.new (.Sender sid)).to_sender.1 = some sid) ∧
    (c.to_receiver.2 = ⟨none⟩ ∧ c.to_sender.2 = ⟨none⟩) ∧
    ((⟨none⟩ : OsOpaqueIpcChannel).to_receiver.1 = none ∧
      (⟨none⟩ : OsOpaqueIpcChannel).to_sender.1 = none) := by
  refine ⟨⟨rfl, rfl⟩, ⟨rfl, rfl⟩, ⟨?_, ?_⟩, rfl, rfl⟩
  · obtain ⟨ch⟩ := c
    cases ch with
    | none => rfl
    | some ep => cases ep <;> rfl
  · obtain ⟨ch⟩ := c
    cases ch with
    | none => rfl
    | some ep => cases ep <;> rfl

/-- C10: after `consume()`, `recv` and `try_recv` on the emptied original
handle hit the `unwrap` of an empty slot — a panic, which is a different
outcome from every typed `ChannelError` result — while the handle `consume`
returned behaves exactly as the original did on every channel state. -/
theorem claim_C10_consume_original_panics (h : OsIpcReceiver) (c : Channel) :
    OsIpcReceiver.recv h.consume.2 c = .panicked ∧
    OsIpcReceiver.try_recv h.consume.2 c = .panicked ∧
    (∀ r c', (RecvResult.panicked : RecvResult) ≠ .result r c') ∧
    OsIpcReceiver.recv h.consume.1 c = OsIpcReceiver.recv h c ∧
    OsIpcReceiver.try_recv h.consume.1 c = OsIpcReceiver.try_recv h c := by
  refine ⟨rfl, rfl, ?_, rfl, rfl⟩
  intro r c' hcontra
  cases hcontra

/-- An index that yields an element bounds the list's length. -/
theorem idx_lt_length {α : Type} (l : List α) (i : Nat) (a : α)
    (h : l[i]? = some a) : i < l.length := by
  by_contra hge
  rw [List.getElem?_eq_none (Nat.le_of_not_lt hge)] at h
  cases h

/-- Removing the entry at `i` from a strictly increasing list removes the id
found there for good. -/
theorem not_mem_eraseIdx_of_sorted :
    ∀ (l : List Nat) (i : Nat) (id : Nat), l.Pairwise (· < ·) →
      l[i]? = some id → id ∉ l.eraseIdx i := by
  intro l
  induction l with
  | nil => intro i id _ hg; cases hg
  | cons a t ih =>
    intro i id hp hg
    cases i with
    | zero =>
      simp only [List.getElem?_cons_zero, Option.some_inj] at hg
      subst hg
      rw [List.eraseIdx_cons_zero]
      intro hmem
      exact absurd (List.rel_of_pairwise_cons hp hmem) (lt_irrefl _)
    | succ j =>
      rw [List.getElem?_cons_succ] at hg
      rw [List.eraseIdx_cons_succ]
      intro hmem
      rcases List.mem_cons.mp hmem with rfl | hmem'
      · exact absurd (List.rel_of_pairwise_cons hp (List.getElem?_mem hg))
          (lt_irrefl _)
      · exact absurd hmem' (ih j id hp.of_cons hg)

/-- `add` preserves the receiver-set invariant, and the id it hands out was
never held by the set before. -/
theorem wf_add (s : OsIpcReceiverSet) (c : Channel) (hwf : RSetWF s) :
    RSetWF (s.add c).2 ∧ (s.add c).1 ∉ s.receiver_ids := by
  obtain ⟨hpw, hbound, hlen⟩ := hwf
  refine ⟨⟨?_, ?_, ?_⟩, ?_⟩
  · rw [OsIpcReceiverSet.add]
    rw [List.pairwise_append]
    refine ⟨hpw, List.pairwise_singleton _ _, ?_⟩
    intro a ha b hb
    rw [List.mem_singleton] at hb
    subst hb
    exact hbound a ha
  · intro id hid
    rw [OsIpcReceiverSet.add] at hid
    simp only [List.mem_append, List.mem_singleton] at hid
    rcases hid with hid | rfl
    · exact Nat.lt_succ_of_lt (hbound id hid)
    · exact Nat.lt_succ_self _
  · simp [OsIpcReceiverSet.add, hlen]
  · intro hmem
    exact absurd (hbound _ hmem) (lt_irrefl _)

/-- `select` preserves the receiver-set invariant, leaves the incrementor
alone, and never enlarges the id list. -/
theorem wf_select (s : OsIpcReceiverSet) (i : Nat)
    (r : Except ChannelError (List OsIpcSelectionResult)) (s' : OsIpcReceiverSet)
    (hwf : RSetWF s) (hsel : s.select i = some (r, s')) :
    RSetWF s' ∧ s'.incrementor = s.incrementor ∧
      (∀ id ∈ s'.receiver_ids, id ∈ s.receiver_ids) := by
  obtain ⟨hpw, hbound, hlen⟩ := hwf
  rcases select_spec s i r s' hsel with
    ⟨_, _, rfl⟩ | ⟨c, r_id, m, rest, hc, hid, hq, hr, rfl⟩ |
    ⟨c, r_id, hc, hid, hq, hz, hr, rfl⟩
  · exact ⟨⟨hpw, hbound, hlen⟩, rfl, fun id h => h⟩
  · exact ⟨⟨hpw, hbound, by simp [hlen]⟩, rfl, fun id h => h⟩
  · have hsub : List.Sublist (s.receiver_ids.eraseIdx i) s.receiver_ids :=
      List.eraseIdx_sublist _ _
    have hi1 : i < s.receiver_ids.length := idx_lt_length _ _ _ hid
    have hi2 : i < s.receivers.length := idx_lt_length _ _ _ hc
    refine ⟨⟨hpw.sublist hsub, fun id h => hbound id (hsub.subset h), ?_⟩,
      rfl, fun id h => hsub.subset h⟩
    rw [List.length_eraseIdx, List.length_eraseIdx]
    simp [hi1, hi2, hlen]

/-- A set that can never again produce the id: well-formed, the id below the
incrementor (so `add` cannot hand it out) and absent from the members. -/
def Avoids (id : Nat) (s : OsIpcReceiverSet) : Prop :=
  RSetWF s ∧ id < s.incrementor ∧ id ∉ s.receiver_ids

/-- One step of any operation on an avoiding set neither mentions the id in
its event nor stops the set avoiding it. -/
theorem avoids_step (id : Nat) (s : OsIpcReceiverSet) (op : RSetOp)
    (h : Avoids id s) :
    eventMentions id (rsetStep s op).1 = false ∧ Avoids id (rsetStep s op).2 := by
  obtain ⟨hwf, hlt, hnot⟩ := h
  cases op with
  | addOp c =>
    have hadd := wf_add s c hwf
    refine ⟨?_, hadd.1, ?_, ?_⟩
    · simp only [rsetStep, eventMentions, OsIpcReceiverSet.add]
      rw [beq_eq_false_iff_ne]
      omega
    · simp only [rsetStep, OsIpcReceiverSet.add]
      omega
    · simp only [rsetStep, OsIpcReceiverSet.add]
      intro hmem
      rcases List.mem_append.mp hmem with hm | hm
      · exact hnot hm
      · rw [List.mem_singleton] at hm
        omega
  | selectOp i =>
    cases hsel : s.select i with
    | none =>
      simp only [rsetStep, hsel]
      exact ⟨rfl, hwf, hlt, hnot⟩
    | some p =>
      obtain ⟨r, s'⟩ := p
      have hws := wf_select s i r s' hwf hsel
      have havoid : Avoids id s' := by
        refine ⟨hws.1, ?_, fun hm => hnot (hws.2.2 id hm)⟩
        rw [hws.2.1]
        exact hlt
      simp only [rsetStep, hsel]
      refine ⟨?_, havoid⟩
      rcases select_spec s i r s' hsel with
        ⟨_, rfl, _⟩ | ⟨c, r_id, m, rest, hc, hid, hq, rfl, _⟩ |
        ⟨c, r_id, hc, hid, hq, hz, rfl, _⟩
      · rfl
      · simp only [eventMentions, List.any_cons, List.any_nil,
          resultMentions, Bool.or_false]
        rw [beq_eq_false_iff_ne]
        intro hrid
        exact hnot (hrid ▸ List.getElem?_mem hid)
      · simp only [eventMentions, List.any_cons, List.any_nil,
          resultMentions, Bool.or_false]
        rw [beq_eq_false_iff_ne]
        intro hrid
        exact hnot (hrid ▸ List.getElem?_mem hid)

/-- No event of any run from an avoiding set ever mentions the id. -/
theorem avoids_run (id : Nat) :
    ∀ (ops : List RSetOp) (s : OsIpcReceiverSet), Avoids id s →
      ∀ e ∈ (rsetRun s ops).1, eventMentions id e = false := by
  intro ops
  induction ops with
  | nil => intro s _ e he; cases he
  | cons op rest ih =>
    intro s hs e he
    have hstep := avoids_step id s op hs
    simp only [rsetRun, List.mem_cons] at he
    rcases he with rfl | he
    · exact hstep.1
    · exact ih _ hstep.2 e he

/-- C6: ids are assigned monotonically starting at 0 (the fresh set's
incrementor is 0, `add` returns the current incrementor and bumps it) and
an id is never in the set twice; once `select` reports `ChannelClosed(id)`,
the member with that id is removed and no sequence of later `select` or
`add` calls ever reports, returns or reassigns that id. -/
theorem claim_C6_ids_monotonic_never_reused :
    (OsIpcReceiverSet.new.incrementor = 0 ∧
      OsIpcReceiverSet.new.receiver_ids = [] ∧ RSetWF OsIpcReceiverSet.new) ∧
    (∀ (s : OsIpcReceiverSet) (c : Channel),
      (s.add c).1 = s.incrementor ∧
      (s.add c).2.incrementor = s.incrementor + 1 ∧
      (RSetWF s → (s.add c).1 ∉ s.receiver_ids ∧ RSetWF (s.add c).2)) ∧
    (∀ (s : OsIpcReceiverSet) (i : Nat) (id : Nat) (s' : OsIpcReceiverSet),
      RSetWF s → s.select i = some (.ok [.ChannelClosed id], s') →
        id ∉ s'.receiver_ids ∧ RSetWF s' ∧
        (∀ (ops : List RSetOp) (e : RSetEvent),
          e ∈ (rsetRun s' ops).1 → eventMentions id e = false)) := by
  refine ⟨⟨rfl, rfl, List.Pairwise.nil, ?_, rfl⟩, ?_, ?_⟩
  · intro p hp; cases hp
  · intro s c
    exact ⟨rfl, rfl, fun hwf => ⟨(wf_add s c hwf).2, (wf_add s c hwf).1⟩⟩
  · intro s i id s' hwf hsel
    have hws := wf_select s i (.ok [.ChannelClosed id]) s' hwf hsel
    rcases select_spec s i (.ok [.ChannelClosed id]) s' hsel with
      ⟨_, hr, _⟩ | ⟨c, r_id, m, rest, hc, hid, hq, hr, _⟩ |
      ⟨c, r_id, hc, hid, hq, hz, hr, hs'⟩
    · cases hr
    · injection hr with hr'
      cases hr'
    · injection hr with hr'
      injection hr' with hev _
      injection hev with hridEq
      subst hridEq
      have hmem : id ∈ s.receiver_ids := List.getElem?_mem hid
      have hgone : id ∉ s'.receiver_ids := by
        rw [hs']
        exact not_mem_eraseIdx_of_sorted s.receiver_ids i id hwf.1 hid
      refine ⟨hgone, hws.1, ?_⟩
      intro ops e he
      have havoid : Avoids id s' := by
        refine ⟨hws.1, ?_, hgone⟩
        rw [hws.2.1]
        exact hwf.2.1 id hmem
      exact avoids_run id ops s' havoid e he

/-!
Concrete sanity checks of the embedding, mirroring the observable scenarios
of the specification: they evaluate the definitions on closed inputs.
-/

example :
    sendAll channel [⟨[104, 105], [], []⟩, ⟨[33], [], []⟩] =
      .ok { queue := [⟨[104, 105], [], []⟩, ⟨[33], [], []⟩],
            senders := 1, disconnected := false } := by decide

example :
    recvN OsIpcReceiver.fresh
        { queue := [⟨[104, 105], [], []⟩, ⟨[33], [], []⟩],
          senders := 1, disconnected := false } 2 =
      some ([([104, 105], [], []), ([33], [], [])], channel) := rfl

example :
    OsIpcSender.send { queue := [], senders := 0, disconnected := true }
      [1] [] [] = .error .BrokenPipeError := by decide

example :
    OsIpcReceiver.recv OsIpcReceiver.fresh
      { queue := [], senders := 0, disconnected := false } =
      .result (.error .ChannelClosedError)
        { queue := [], senders := 0, disconnected := false } := by decide

example :
    ((OsIpcReceiverSet.new.add
        { queue := [⟨[5], [], []⟩], senders := 1, disconnected := false }).2).select 0 =
      some (.ok [.DataReceived 0 [5] [] []],
        { incrementor := 1, receiver_ids := [0],
          receivers := [{ queue := [], senders := 1, disconnected := false }] }) := by
  decide

example :
    (((OsIpcReceiverSet.new.add
          { queue := [], senders := 0, disconnected := true }).2.add
        { queue := [], senders := 1, disconnected := false }).2).select 0 =
      some (.ok [.ChannelClosed 0],
        { incrementor := 2, receiver_ids := [1],
          receivers := [{ queue := [], senders := 1, disconnected := false }] }) := by
  decide

example : OsIpcReceiverSet.new.select 0 = some (.error .UnknownError, .new) := by
  decide

example :
    OsIpcSender.connect (OsIpcOneShotServer.newServer [] "server-name" 4)
        "server-name" =
      some ([("server-name", ⟨4, 1⟩)], 4) := by decide

example :
    OsIpcOneShotServer.accept [("server-name", ⟨4, 1⟩)] "server-name" =
      .accepted [] := by decide

example : (OsIpcSharedMemory.from_byte 7 4 0).deref = some [7, 7, 7, 7] := by
  decide

example :
    OsIpcSharedMemory.beq (.from_bytes [1, 2, 3] 0) (.from_bytes [1, 2, 3] 9) =
      some true := by decide

end InProcess
